import Mathlib

/-!
# Verification of the budsy coordinate-resolution and iterative-session engine

Shallow embedding of the coordinate validation, viewport resolution,
retry/feedback loops, email-field clearing cascade and logged action
execution of the budsy testing agent.  JavaScript numbers are modelled as
rationals (`ℚ`); `Math.floor` is `Int.floor`; driver and AI-backend calls
are modelled as oracles returning `Except String α` (an `error` value is a
thrown JavaScript exception).  All constants appearing on the verified
paths (`0.25`, `0.5`, `0.01`, …) are either exactly representable as IEEE
doubles or only compared against integers far below the precision limit,
so the rational model is faithful on those paths.
-/

namespace Budsy

/-- `Math.floor` on a JavaScript number. -/
def jsFloor (q : ℚ) : ℤ := ⌊q⌋

/-- `Math.floor(v + 0.5)`, the snapping used by the validator. -/
def snapHalf (q : ℚ) : ℤ := ⌊q + 1/2⌋

/-- A window size as returned by `driver.getWindowSize()`. -/
structure WindowSize where
  width : ℚ
  height : ℚ
deriving DecidableEq, Repr

/-- The in-page viewport query result produced by `driver.execute(...)` in
`getViewportInfo` (fields `width`, `height`, `scrollX`, `scrollY`,
`scrollWidth`, `scrollHeight`, `clientWidth`, `clientHeight`). -/
structure ViewportQuery where
  width : ℚ
  height : ℚ
  scrollX : ℚ
  scrollY : ℚ
  scrollWidth : ℚ
  scrollHeight : ℚ
  clientWidth : ℚ
  clientHeight : ℚ
deriving DecidableEq, Repr

/-- Browser chrome size (`windowSize − viewportSize`). -/
structure BrowserChrome where
  width : ℚ
  height : ℚ
deriving DecidableEq, Repr

/-- The safe interaction zone (inclusive pixel rectangle). -/
structure SafeZone where
  minX : ℚ
  minY : ℚ
  maxX : ℚ
  maxY : ℚ
deriving DecidableEq, Repr

/-- The `viewport` field of a `getViewportInfo` result: either the full
in-page query (success path) or the bare window size (fallback path, where
the source assigns the window-size object itself). -/
inductive ViewportView where
  | full (q : ViewportQuery)
  | bare (ws : WindowSize)
deriving DecidableEq, Repr

/-- Result object of `getViewportInfo`. -/
structure ViewportInfoResult where
  window : WindowSize
  viewport : ViewportView
  browserChrome : BrowserChrome
  safeZone : SafeZone
deriving DecidableEq, Repr

/-- Oracle for the two driver capabilities used by `getViewportInfo`:
`driver.getWindowSize()` and the in-page `driver.execute(...)` query.  The
driver is modelled as deterministic: repeated calls return the same value.
The model assumes `this.driver` is initialized (the source throws
`Driver not initialized` otherwise). -/
structure ViewportDriver where
  getWindowSize : Except String WindowSize
  execute : Except String ViewportQuery

/-- `getScreenSize()`: returns `driver.getWindowSize()`, rethrowing its
error after logging. -/
def getScreenSize (d : ViewportDriver) : Except String WindowSize :=
  d.getWindowSize

/-- The fallback taken by the `catch` block of `getViewportInfo`: calls
`getScreenSize()` (which itself may throw) and builds the degraded result
with an assumed 50px chrome height and 10px margins. -/
def viewportFallback (d : ViewportDriver) : Except String ViewportInfoResult :=
  match getScreenSize d with
  | .error e => .error e
  | .ok ws =>
      .ok { window := ws
            viewport := .bare ws
            browserChrome := { width := 0, height := 50 }
            safeZone :=
              { minX := 10
                minY := 50
                maxX := ws.width - 10
                maxY := ws.height - 10 } }

/-- `getViewportInfo()`: window size, in-page viewport query, browser
chrome and safe zone; any failure in the `try` block diverts to the
fallback, which rethrows if the window-size query fails again. -/
def getViewportInfo (d : ViewportDriver) : Except String ViewportInfoResult :=
  match d.getWindowSize with
  | .error _ => viewportFallback d
  | .ok ws =>
      match d.execute with
      | .error _ => viewportFallback d
      | .ok vq =>
          let browserChrome : BrowserChrome :=
            { width := ws.width - vq.width, height := ws.height - vq.height }
          .ok { window := ws
                viewport := .full vq
                browserChrome := browserChrome
                safeZone :=
                  { minX := 15
                    minY := max 60 (browserChrome.height + 15)
                    maxX := vq.width - 15
                    maxY := vq.height - 15 } }

/-- The `viewportInfo` argument consumed by
`_validateCoordinatesWithViewport` (only the fields the validator reads:
`viewport.width/height/scrollX/scrollY` and `safeZone`). -/
structure Viewport where
  width : ℚ
  height : ℚ
  scrollX : ℚ
  scrollY : ℚ
deriving DecidableEq, Repr

/-- Validator input bundling viewport dimensions and the safe zone. -/
structure ViewportInfo where
  viewport : Viewport
  safeZone : SafeZone
deriving DecidableEq, Repr

/-- A bounding box as supplied by the AI backend (the `width`/`height`
fields may be absent, in which case the source falls back to
`right - left` / `bottom - top`; a present value of `0` is falsy in
JavaScript and triggers the same fallback). -/
structure BoundingBox where
  left : ℚ
  top : ℚ
  right : ℚ
  bottom : ℚ
  width : Option ℚ := none
  height : Option ℚ := none
deriving DecidableEq, Repr

/-- JavaScript `a || b` for an optional number: a missing or zero (falsy)
value yields the fallback. -/
def truthyOr (o : Option ℚ) (d : ℚ) : ℚ :=
  match o with
  | none => d
  | some w => if w = 0 then d else w

/-- The processed (integer) bounding box built at the top of the bounding
box branch: every edge snapped with `Math.floor(v + 0.5)`, width/height
floored with the `||` fallback. -/
structure ProcessedBBox where
  left : ℤ
  top : ℤ
  right : ℤ
  bottom : ℤ
  width : ℤ
  height : ℤ
deriving DecidableEq, Repr

/-- Builds the processed bounding box. -/
def processBBox (b : BoundingBox) : ProcessedBBox :=
  { left := snapHalf b.left
    top := snapHalf b.top
    right := snapHalf b.right
    bottom := snapHalf b.bottom
    width := jsFloor (truthyOr b.width (b.right - b.left))
    height := jsFloor (truthyOr b.height (b.bottom - b.top)) }

/-- The sanity checks `isBboxValid` of the source: non-negative origin,
within the viewport, positive extent, and at least 10px in each
dimension. -/
def isBboxValid (bbox : ProcessedBBox) (viewport : Viewport) : Prop :=
  0 ≤ bbox.left ∧ 0 ≤ bbox.top ∧
  (bbox.right : ℚ) ≤ viewport.width ∧ (bbox.bottom : ℚ) ≤ viewport.height ∧
  bbox.left < bbox.right ∧ bbox.top < bbox.bottom ∧
  10 ≤ bbox.width ∧ 10 ≤ bbox.height

instance (bbox : ProcessedBBox) (viewport : Viewport) :
    Decidable (isBboxValid bbox viewport) := by
  unfold isBboxValid; infer_instance

/-- Tags for the `adjustmentReason` strings accumulated by the validator. -/
inductive AdjustReason where
  | screenToViewport
  | clampedToSafeZone
  | smartPositioned
deriving DecidableEq, Repr

/-- Output of `_validateCoordinatesWithViewport`. -/
structure CoordResolution where
  x : ℚ
  y : ℚ
  wasAdjusted : Bool
  reasons : List AdjustReason
  safeZone : SafeZone
deriving DecidableEq, Repr

/-- JavaScript `Math.max(lo, Math.min(v, hi))`. -/
def clampTo (lo v hi : ℚ) : ℚ := max lo (min v hi)

/-- Steps 1–3 of `_validateCoordinatesWithViewport`: snap to integers,
screen-to-viewport correction when the raw point exceeds the viewport
dimensions (note: the source clamps the raw `x`/`y` minus scroll, not the
snapped values), then the unconditional safe-zone clamp.  Returns the
point together with the accumulated adjustment state. -/
def preBoxResolve (x y : ℚ) (vi : ViewportInfo) :
    ℚ × ℚ × Bool × List AdjustReason :=
  let sz := vi.safeZone
  let vp := vi.viewport
  let v0 : ℚ × ℚ × Bool × List AdjustReason :=
    if x > vp.width ∨ y > vp.height then
      (clampTo sz.minX (x - vp.scrollX) sz.maxX,
       clampTo sz.minY (y - vp.scrollY) sz.maxY,
       true, [.screenToViewport])
    else
      (((snapHalf x : ℤ) : ℚ), ((snapHalf y : ℤ) : ℚ), false, [])
  let vx := v0.1
  let vy := v0.2.1
  if vx < sz.minX ∨ vx > sz.maxX ∨ vy < sz.minY ∨ vy > sz.maxY then
    (clampTo sz.minX vx sz.maxX, clampTo sz.minY vy sz.maxY,
     true, v0.2.2.2 ++ [.clampedToSafeZone])
  else
    v0

/-- The bounding-box branch of `_validateCoordinatesWithViewport`: a valid
box whose 2px-inset inner rectangle does not contain the current point
retargets via the element-shape heuristics and clamps into the inner
rectangle; an invalid box is only logged. -/
def applyBoundingBox (b : BoundingBox) (vi : ViewportInfo)
    (p : ℚ × ℚ × Bool × List AdjustReason) : ℚ × ℚ × Bool × List AdjustReason :=
  let bbox := processBBox b
  if isBboxValid bbox vi.viewport then
    let innerLeft : ℤ := bbox.left + 2
    let innerRight : ℤ := bbox.right - 2
    let innerTop : ℤ := bbox.top + 2
    let innerBottom : ℤ := bbox.bottom - 2
    let vx := p.1
    let vy := p.2.1
    if vx < (innerLeft : ℚ) ∨ vx > (innerRight : ℚ) ∨
       vy < (innerTop : ℚ) ∨ vy > (innerBottom : ℚ) then
      let target : ℤ × ℤ :=
        if bbox.width > 200 ∧ bbox.height < 60 then
          (jsFloor ((bbox.left : ℚ) + (bbox.width : ℚ) * (1/4)),
           jsFloor ((bbox.top : ℚ) + (bbox.height : ℚ) * (1/2)))
        else if bbox.width < 200 ∧ bbox.height < 60 then
          (jsFloor ((bbox.left : ℚ) + (bbox.width : ℚ) * (1/2)),
           jsFloor ((bbox.top : ℚ) + (bbox.height : ℚ) * (1/2)))
        else
          (jsFloor ((bbox.left : ℚ) + (bbox.width : ℚ) * (2/5)),
           jsFloor ((bbox.top : ℚ) + (bbox.height : ℚ) * (2/5)))
      (clampTo (innerLeft : ℚ) (target.1 : ℚ) (innerRight : ℚ),
       clampTo (innerTop : ℚ) (target.2 : ℚ) (innerBottom : ℚ),
       true, p.2.2.2 ++ [.smartPositioned])
    else p
  else p

/-- `_validateCoordinatesWithViewport(x, y, viewportInfo, boundingBox)`. -/
def validateCoordinatesWithViewport (x y : ℚ) (vi : ViewportInfo)
    (boundingBox : Option BoundingBox := none) : CoordResolution :=
  let p := preBoxResolve x y vi
  let q :=
    match boundingBox with
    | some b => applyBoundingBox b vi p
    | none => p
  { x := q.1, y := q.2.1, wasAdjusted := q.2.2.1, reasons := q.2.2.2
    safeZone := vi.safeZone }

/-- Screenshots travel as base64 strings; `_hasUIChanged` compares their
`.length`.  The model keeps the string itself. -/
abbrev Screenshot := String

/-- `_hasUIChanged(screenshot1, screenshot2)`: a missing or empty (falsy)
screenshot counts as changed; otherwise the byte-length delta is compared
against 1% of the first screenshot's length. -/
def hasUIChanged (screenshot1 screenshot2 : Screenshot) : Bool :=
  if screenshot1 = "" ∨ screenshot2 = "" then true
  else
    let lengthDiff : ℤ := |(screenshot1.length : ℤ) - (screenshot2.length : ℤ)|
    let threshold : ℚ := (screenshot1.length : ℚ) * (1/100)
    decide ((lengthDiff : ℚ) > threshold)

/-- An alternative action attached to an AI guidance response (only the
fields the retry loop reads). -/
structure AltAction where
  confidence : Option ℚ
deriving Repr

/-- An AI guidance response as consumed by `_executeVisualActionStep`.
The AI client fills both `action_type` and `actionType` with the same
backend value, so `actionType` is the field the UI-change check reads. -/
structure Guidance where
  success : Bool
  confidence : Option ℚ
  alternativeActions : List AltAction
  actionType : Option String
deriving Repr

/-- JavaScript truthiness of an optional numeric field
(`undefined`, `0` are falsy). -/
def numTruthy (o : Option ℚ) : Bool :=
  match o with
  | none => false
  | some v => decide (v ≠ 0)

/-- `error.message.includes(needle)` for the retry loop's
`could not find` check. -/
def messageIncludes (message needle : String) : Bool :=
  decide (1 < (message.splitOn needle).length)

/-- The error thrown when guidance is unsuccessful:
`AI could not find element (attempt n): reasoning`.  The reasoning text is
irrelevant to control flow and elided. -/
def aiNotFoundMessage (attempt : ℕ) : String :=
  "AI could not find element (attempt " ++ toString attempt ++ ")"

/-- Environment of one step of `_executeVisualActionStep`: the AI client
and driver calls of each attempt, indexed by attempt number (and, for
guidance, the current screenshot it is shown).  Each `Except.error` is a
thrown JavaScript exception.  `pause` calls are modelled as non-throwing. -/
structure StepEnv where
  guidance : ℕ → Screenshot → Guidance
  performMain : ℕ → Except String Unit
  performAlt : ℕ → Except String Unit
  afterShot : ℕ → Except String Screenshot
  retryShot : ℕ → Except String Screenshot
  scrollDown : ℕ → Except String Unit
  scrollShot : ℕ → Except String Screenshot

/-- A record appended to `currentTest.steps` by the step retry loop. -/
structure StepRec where
  success : Bool
  attempts : ℕ
  err : Option String
deriving DecidableEq, Repr

/-- Outcome of `_executeVisualActionStep`: the step records pushed and the
exception propagated to the caller (`none` when the function returns
normally). -/
structure VStepResult where
  pushed : List StepRec
  thrown : Option String
deriving DecidableEq, Repr

/-- The `maxRetries` constant of `_executeVisualActionStep`. -/
def maxRetries : ℕ := 3

/-- First alternative action with `confidence > 0.7` (JavaScript leaves
`undefined > 0.7` false, so a missing confidence never qualifies). -/
def firstQualifyingAlt (alts : List AltAction) : Option AltAction :=
  alts.find? (fun a =>
    match a.confidence with
    | some c => decide (c > 7/10)
    | none => false)

/-- The `catch` block of one attempt of `_executeVisualActionStep`: on a
non-final attempt take a fresh screenshot (uncaught failure propagates),
scroll down once when a `could not find` error hits attempt 2, and hand
the (possibly refreshed) screenshot to the continuation; on the final
attempt the continuation is reached with no new screenshot and the loop
then exhausts. -/
def stepCatch (env : StepEnv) (attempt : ℕ) (cur : Screenshot) (e : String)
    (continue_ : Screenshot → Option String → VStepResult) : VStepResult :=
  if attempt < maxRetries then
    match env.retryShot attempt with
    | .error e2 => { pushed := [], thrown := some e2 }
    | .ok shot =>
        if messageIncludes e "could not find" ∧ attempt = 2 then
          match env.scrollDown attempt with
          | .error e2 => { pushed := [], thrown := some e2 }
          | .ok _ =>
              match env.scrollShot attempt with
              | .error e2 => { pushed := [], thrown := some e2 }
              | .ok shot2 => continue_ shot2 (some e)
        else continue_ shot (some e)
  else continue_ cur (some e)

/-- The attempt loop of `_executeVisualActionStep`.  `fuel` counts the
remaining iterations of `for (attempt = 1; attempt <= maxRetries; ...)`;
the entry point supplies `fuel = maxRetries` and `attempt = 1`, so
`fuel = maxRetries + 1 - attempt` throughout.  When the fuel runs out the
source records the failed step and rethrows the last error. -/
def stepLoop (env : StepEnv) : ℕ → ℕ → Screenshot → Option String → VStepResult
  | 0, _, _, lastError =>
      { pushed := [{ success := false, attempts := maxRetries, err := lastError }]
        thrown := lastError }
  | fuel + 1, attempt, cur, lastError =>
      let g := env.guidance attempt cur
      if g.success then
        match env.performMain attempt with
        | .error e =>
            stepCatch env attempt cur e (fun shot le => stepLoop env fuel (attempt + 1) shot le)
        | .ok _ =>
            if attempt < maxRetries then
              match env.afterShot attempt with
              | .error e =>
                  stepCatch env attempt cur e
                    (fun shot le => stepLoop env fuel (attempt + 1) shot le)
              | .ok newScreenshot =>
                  if hasUIChanged cur newScreenshot = false ∧ g.actionType = some "click" then
                    stepLoop env fuel (attempt + 1) newScreenshot lastError
                  else
                    { pushed := [{ success := true, attempts := attempt, err := none }]
                      thrown := none }
            else
              { pushed := [{ success := true, attempts := attempt, err := none }]
                thrown := none }
      else
        if numTruthy g.confidence ∧ (g.confidence.getD 0) < 4/5 then
          match firstQualifyingAlt g.alternativeActions with
          | some _ =>
              match env.performAlt attempt with
              | .error e =>
                  stepCatch env attempt cur e
                    (fun shot le => stepLoop env fuel (attempt + 1) shot le)
              | .ok _ =>
                  { pushed := [{ success := true, attempts := attempt, err := none }]
                    thrown := none }
          | none =>
              stepCatch env attempt cur (aiNotFoundMessage attempt)
                (fun shot le => stepLoop env fuel (attempt + 1) shot le)
        else
          stepCatch env attempt cur (aiNotFoundMessage attempt)
            (fun shot le => stepLoop env fuel (attempt + 1) shot le)

/-- `_executeVisualActionStep` for one step: run the attempt loop from
attempt 1 on the step's starting screenshot. -/
def executeVisualActionStep (env : StepEnv) (screenshot : Screenshot) : VStepResult :=
  stepLoop env maxRetries 1 screenshot none

/-- Target coordinates of an action. -/
structure Coord where
  x : ℚ
  y : ℚ
deriving DecidableEq, Repr

/-- An action object from AI guidance, as consumed by
`executeActionWithLogging` (absent fields are `none`). -/
structure IterAction where
  action_type : String
  coordinates : Option Coord := none
  input_value : Option String := none
  scroll_direction : Option String := none
  wait_condition : Option String := none
deriving Repr

/-- Driver capabilities used by `executeActionWithLogging`.  Each call is
deterministic within one invocation; `Except.error` is a thrown
exception.  `pause` may reject like any other driver call. -/
structure ActionDriver where
  clickAtCoordinates : ℚ → ℚ → Except String Unit
  typeAtCoordinates : ℚ → ℚ → String → Except String Unit
  scrollPage : String → ℕ → Except String Unit
  pause : Except String Unit
  navigateTo : String → Except String Unit
  takeScreenshot : Except String Screenshot

/-- JavaScript `s || d` for an optional string (missing or empty is
falsy). -/
def strTruthyOr (o : Option String) (d : String) : String :=
  match o with
  | none => d
  | some s => if s = "" then d else s

/-- The `switch (action.action_type)` dispatch inside the `try` block of
`executeActionWithLogging`.  Reading `action.coordinates.x` when
`coordinates` is absent throws a `TypeError`, modelled as an error value;
a falsy `input_value` throws the source's descriptive errors; an unknown
type throws `Unsupported action type`. -/
def dispatchAction (d : ActionDriver) (action : IterAction) : Except String Unit :=
  if action.action_type = "click" then
    match action.coordinates with
    | some c => d.clickAtCoordinates c.x c.y
    | none => .error "TypeError: cannot read coordinates of undefined"
  else if action.action_type = "type" then
    match action.input_value with
    | some v =>
        if v = "" then .error "No input value provided for type action"
        else
          match action.coordinates with
          | some c => d.typeAtCoordinates c.x c.y v
          | none => .error "TypeError: cannot read coordinates of undefined"
    | none => .error "No input value provided for type action"
  else if action.action_type = "scroll" then
    d.scrollPage (strTruthyOr action.scroll_direction "down") 3
  else if action.action_type = "wait" then
    d.pause
  else if action.action_type = "navigate" then
    match action.input_value with
    | some v =>
        if v = "" then .error "No URL provided for navigate action"
        else d.navigateTo v
    | none => .error "No URL provided for navigate action"
  else .error ("Unsupported action type: " ++ action.action_type)

/-- The `actionResult` object assembled by `executeActionWithLogging`. -/
structure ActionResultR where
  action_type : String
  success : Bool
  error_message : Option String
  element_found : Bool
  screenshot_after : Option Screenshot
deriving DecidableEq, Repr

/-- An entry of `this.actionLogs`. -/
structure AppiumLog where
  command : String
  statusSuccess : Bool
  error_details : Option String
deriving DecidableEq, Repr

/-- Return value of `executeActionWithLogging`. -/
structure ExecLoggingResult where
  actionResult : ActionResultR
  appiumLog : AppiumLog
  screenshotAfter : Option Screenshot
deriving DecidableEq, Repr

/-- `executeActionWithLogging(action)`: dispatch the action, take a
post-action screenshot (also attempted, under its own `catch`, after a
failure), assemble the result and append exactly one log entry.  The
function itself never throws: every driver failure is caught and recorded
in `error_message`.  A screenshot failure after a successful action is
also caught and flips `success` back to `false`. -/
def executeActionWithLogging (d : ActionDriver) (action : IterAction)
    (actionLogs : List AppiumLog) : ExecLoggingResult × List AppiumLog :=
  let state : Bool × Option String × Bool × Option Screenshot :=
    match dispatchAction d action with
    | .ok _ =>
        match d.takeScreenshot with
        | .ok s => (true, none, true, some s)
        | .error e => (false, some e, false, none)
    | .error e =>
        match d.takeScreenshot with
        | .ok s => (false, some e, false, some s)
        | .error _ => (false, some e, false, none)
  let success := state.1
  let errorMessage := state.2.1
  let elementFound := state.2.2.1
  let screenshotAfter := state.2.2.2
  let actionResult : ActionResultR :=
    { action_type := action.action_type
      success := success
      error_message := errorMessage
      element_found := elementFound
      screenshot_after := screenshotAfter }
  let appiumLog : AppiumLog :=
    { command := action.action_type
      statusSuccess := success
      error_details := errorMessage }
  ({ actionResult := actionResult, appiumLog := appiumLog
     screenshotAfter := screenshotAfter },
   actionLogs ++ [appiumLog])

/-- Environment of `_clearEmailField`: the composite effect of running
clearing method `i` (a fixed keystroke sequence sent to the driver) and of
the in-page read of the focused field's value afterwards.  An
`Except.error` is a thrown driver call, caught and logged by the source. -/
structure ClearEnv where
  run : ℕ → Except String Unit
  readValue : ℕ → Except String String

/-- JavaScript `String.prototype.trim` on the ASCII whitespace the fields
of this system produce, written over character lists so that it evaluates
inside the kernel. -/
def jsTrim (s : String) : String :=
  String.mk (((s.data.dropWhile Char.isWhitespace).reverse.dropWhile
    Char.isWhitespace).reverse)

/-- The emptiness check `!fieldValue || fieldValue.trim() === ''` applied
to the value read back after a clearing method. -/
def fieldReadsEmpty (v : String) : Bool :=
  decide (v = "" ∨ jsTrim v = "")

/-- Decides whether clearing method `i` runs without throwing and leaves
the focused field reading empty. -/
def methodClears (env : ClearEnv) (i : ℕ) : Bool :=
  match env.run i with
  | .error _ => false
  | .ok _ =>
      match env.readValue i with
      | .error _ => false
      | .ok v => fieldReadsEmpty v

/-- The cascade loop of `_clearEmailField`: try each method in order,
returning as soon as the field reads empty; a throwing method or read is
caught and the next method is tried.  Returns the indices attempted in
order and whether an early return happened. -/
def clearLoop (env : ClearEnv) : List ℕ → List ℕ → List ℕ × Bool
  | [], attempted => (attempted.reverse, false)
  | i :: rest, attempted =>
      if methodClears env i then ((i :: attempted).reverse, true)
      else clearLoop env rest (i :: attempted)

/-- `_clearEmailField()` over its four methods (0 = triple-click-select +
delete, 1 = select-all + delete, 2 = Home/Shift+End + delete, 3 = repeated
backspace). -/
def clearEmailField (env : ClearEnv) : List ℕ × Bool :=
  clearLoop env [0, 1, 2, 3] []

/-- An iterative feedback response (the fields `executeIterativeTest`
inspects). -/
structure FeedbackR where
  should_continue : Bool
  task_completed : Bool
  next_action : Option IterAction := none
deriving Repr

/-- Terminal statuses of an iterative session. -/
inductive SessionStatus where
  | completed
  | stopped
  | max_steps_reached
  | error (message : String)
deriving DecidableEq, Repr

/-- A record appended to `currentTest.steps` by the iterative loop
(step number and the action result's success flag). -/
structure IterStepRec where
  stepNumber : ℕ
  success : Bool
deriving DecidableEq, Repr

/-- Return value of `executeIterativeTest` (the fields the claims are
about: success flag, terminal status, `totalSteps`, the recorded steps and
screenshots). -/
structure IterResult where
  success : Bool
  status : SessionStatus
  totalSteps : ℕ
  steps : List IterStepRec
  screenshots : List Screenshot
deriving DecidableEq, Repr

/-- Environment of `executeIterativeTest`: the initialization calls, the
per-step driver used by `executeActionWithLogging`, the per-step feedback
response (an `error` is a thrown AI-request failure, resolving the session
to `error`), and the per-iteration timeout check (the source compares
`Date.now()` against the soft deadline at the top of each iteration). -/
structure IterEnv where
  initialScreenshot : Except String Screenshot
  getScreenSize : Except String WindowSize
  startSession : Except String (Option IterAction)
  driverAt : ℕ → ActionDriver
  feedback : ℕ → Except String FeedbackR
  timedOut : ℕ → Bool

/-- Builds the `error`-status result from the `catch` block of
`executeIterativeTest`. -/
def iterErrorResult (steps : List IterStepRec) (shots : List Screenshot)
    (message : String) : IterResult :=
  { success := false, status := .error message, totalSteps := 0
    steps := steps, screenshots := shots }

/-- The `while (currentAction && stepNumber <= maxSteps)` loop of
`executeIterativeTest`.  Each iteration checks the timeout (a timeout
throws, resolving to `error`), executes the current action through
`executeActionWithLogging`, records exactly one step (and the post-action
screenshot when present), then inspects the feedback: `task_completed`
resolves `completed`; `!should_continue` resolves `stopped`; a missing
`next_action` breaks out of the loop.  Falling out of the loop — by the
loop condition or by that break — lands in the `max_steps_reached`
epilogue with `totalSteps = stepNumber - 1`. -/
def iterLoop (env : IterEnv) (maxSteps : ℕ) (currentAction : Option IterAction)
    (stepNumber : ℕ) (steps : List IterStepRec) (shots : List Screenshot) :
    IterResult :=
  match currentAction with
  | none =>
      { success := false, status := .max_steps_reached
        totalSteps := stepNumber - 1, steps := steps, screenshots := shots }
  | some action =>
      if _h : stepNumber ≤ maxSteps then
        if env.timedOut stepNumber then
          iterErrorResult steps shots "Test execution timeout"
        else
          let er := (executeActionWithLogging (env.driverAt stepNumber) action []).1
          let steps1 := steps ++ [{ stepNumber := stepNumber
                                    success := er.actionResult.success }]
          let shots1 :=
            match er.screenshotAfter with
            | some s => shots ++ [s]
            | none => shots
          match env.feedback stepNumber with
          | .error e => iterErrorResult steps1 shots1 e
          | .ok fb =>
              if fb.task_completed then
                { success := true, status := .completed, totalSteps := stepNumber
                  steps := steps1, screenshots := shots1 }
              else if !fb.should_continue then
                { success := false, status := .stopped, totalSteps := stepNumber
                  steps := steps1, screenshots := shots1 }
              else
                match fb.next_action with
                | none =>
                    { success := false, status := .max_steps_reached
                      totalSteps := stepNumber - 1, steps := steps1
                      screenshots := shots1 }
                | some nextAction =>
                    iterLoop env maxSteps (some nextAction) (stepNumber + 1) steps1 shots1
      else
        { success := false, status := .max_steps_reached
          totalSteps := stepNumber - 1, steps := steps, screenshots := shots }
  termination_by maxSteps + 1 - stepNumber

/-- `executeIterativeTest(instruction, options)`: the effective step
budget is `options.maxSteps || 10`; initialization failures resolve the
session to `error` with the steps and screenshots captured so far; then
the loop runs from step 1 with the AI session's first action. -/
def executeIterativeTest (env : IterEnv) (maxStepsOpt : Option ℕ) : IterResult :=
  let maxSteps :=
    match maxStepsOpt with
    | some m => if m = 0 then 10 else m
    | none => 10
  match env.initialScreenshot with
  | .error e => iterErrorResult [] [] e
  | .ok s0 =>
      match env.getScreenSize with
      | .error e => iterErrorResult [] [s0] e
      | .ok _ =>
          match env.startSession with
          | .error e => iterErrorResult [] [s0] e
          | .ok firstAction => iterLoop env maxSteps firstAction 1 [] [s0]

/-- Whether an `Except` value is a success (no exception was raised). -/
def exceptOk {α : Type} (e : Except String α) : Bool :=
  match e with
  | .ok _ => true
  | .error _ => false

/-- A viewport/safe-zone input as produced by the success path of
`getViewportInfo` for a 1280×720 viewport with zero chrome height, used as
concrete input by several witnesses. -/
def stdViewportInfo : ViewportInfo :=
  { viewport := { width := 1280, height := 720, scrollX := 0, scrollY := 0 }
    safeZone := { minX := 15, minY := 60, maxX := 1265, maxY := 705 } }

/-- An action driver whose calls all succeed, for concrete runs. -/
def okActionDriver : ActionDriver :=
  { clickAtCoordinates := fun _ _ => .ok ()
    typeAtCoordinates := fun _ _ _ => .ok ()
    scrollPage := fun _ _ => .ok ()
    pause := .ok ()
    navigateTo := fun _ => .ok ()
    takeScreenshot := .ok "shot" }

/-- An action driver whose click call is rejected, for concrete runs. -/
def failingClickDriver : ActionDriver :=
  { clickAtCoordinates := fun _ _ => .error "element click intercepted"
    typeAtCoordinates := fun _ _ _ => .ok ()
    scrollPage := fun _ _ => .ok ()
    pause := .ok ()
    navigateTo := fun _ => .ok ()
    takeScreenshot := .ok "shot" }

/-- A concrete click action. -/
def clickAction : IterAction :=
  { action_type := "click", coordinates := some { x := 100, y := 100 } }

/-- An iterative-session environment whose feedback always carries
`task_completed = false`, `should_continue = true` and no `next_action`:
the first feedback response triggers the implicit-stop break. -/
def noNextActionEnv : IterEnv :=
  { initialScreenshot := .ok "s0"
    getScreenSize := .ok { width := 1280, height := 720 }
    startSession := .ok (some clickAction)
    driverAt := fun _ => okActionDriver
    feedback := fun _ =>
      .ok { should_continue := true, task_completed := false, next_action := none }
    timedOut := fun _ => false }

/-- A step environment whose guidance is a confident click and whose
post-action screenshot equals the pre-action one (no UI change). -/
def stepEnvRetry : StepEnv :=
  { guidance := fun _ _ =>
      { success := true, confidence := some (9/10), alternativeActions := []
        actionType := some "click" }
    performMain := fun _ => .ok ()
    performAlt := fun _ => .ok ()
    afterShot := fun _ => .ok "ab"
    retryShot := fun _ => .ok "ab"
    scrollDown := fun _ => .ok ()
    scrollShot := fun _ => .ok "ab" }

/-- A clearing environment where the field reads empty exactly after the
second method (index 1). -/
def clearEnvSecond : ClearEnv :=
  { run := fun _ => .ok ()
    readValue := fun i => .ok (if i = 1 then "" else "user@example.com") }

end Budsy

namespace Budsy

lemma clampTo_mem {lo hi : ℚ} (v : ℚ) (h : lo ≤ hi) :
    lo ≤ clampTo lo v hi ∧ clampTo lo v hi ≤ hi := by
  constructor
  · exact le_max_left _ _
  · exact max_le h (min_le_right _ _)

lemma preBoxResolve_mem (x y : ℚ) (vi : ViewportInfo)
    (hx : vi.safeZone.minX ≤ vi.safeZone.maxX)
    (hy : vi.safeZone.minY ≤ vi.safeZone.maxY) :
    vi.safeZone.minX ≤ (preBoxResolve x y vi).1 ∧
    (preBoxResolve x y vi).1 ≤ vi.safeZone.maxX ∧
    vi.safeZone.minY ≤ (preBoxResolve x y vi).2.1 ∧
    (preBoxResolve x y vi).2.1 ≤ vi.safeZone.maxY := by
  unfold preBoxResolve
  dsimp only
  split_ifs with h1 h2 h3
  · exact ⟨(clampTo_mem _ hx).1, (clampTo_mem _ hx).2, (clampTo_mem _ hy).1,
      (clampTo_mem _ hy).2⟩
  · exact ⟨(clampTo_mem _ hx).1, (clampTo_mem _ hx).2, (clampTo_mem _ hy).1,
      (clampTo_mem _ hy).2⟩
  · exact ⟨(clampTo_mem _ hx).1, (clampTo_mem _ hx).2, (clampTo_mem _ hy).1,
      (clampTo_mem _ hy).2⟩
  · push_neg at h3
    exact ⟨h3.1, h3.2.1, h3.2.2.1, h3.2.2.2⟩

set_option maxHeartbeats 1000000 in
/-- Claim C1, counterexample: the claim that the validated point always
lies inside the safe zone is false as stated.  For the point (200, 200) on
a 1280×720 viewport with safe zone minY = 60, the valid bounding box
(100, 0)–(420, 40) retargets the point into the box's 2px-inset rectangle,
yielding y = 20, strictly below the safe zone's minY. -/
theorem validate_valid_bbox_exits_safeZone :
    (validateCoordinatesWithViewport 200 200 stdViewportInfo
        (some { left := 100, top := 0, right := 420, bottom := 40 })).y <
      (validateCoordinatesWithViewport 200 200 stdViewportInfo
        (some { left := 100, top := 0, right := 420, bottom := 40 })).safeZone.minY := by
  norm_num [validateCoordinatesWithViewport, preBoxResolve, applyBoundingBox, processBBox,
    snapHalf, jsFloor, truthyOr, isBboxValid, clampTo, stdViewportInfo]

/-- Claim C1, amended: for every coordinate pair (x, y) and every
viewportInfo whose safe zone is non-degenerate (minX ≤ maxX and
minY ≤ maxY), `_validateCoordinatesWithViewport` with no bounding box
returns a point inside the safe zone.  (With a valid bounding box the
point is instead clamped into the box's 2px-inset rectangle, which can
leave the safe zone, as the counterexample shows.) -/
theorem validate_no_bbox_within_safeZone (x y : ℚ) (vi : ViewportInfo)
    (hx : vi.safeZone.minX ≤ vi.safeZone.maxX)
    (hy : vi.safeZone.minY ≤ vi.safeZone.maxY) :
    vi.safeZone.minX ≤ (validateCoordinatesWithViewport x y vi none).x ∧
    (validateCoordinatesWithViewport x y vi none).x ≤ vi.safeZone.maxX ∧
    vi.safeZone.minY ≤ (validateCoordinatesWithViewport x y vi none).y ∧
    (validateCoordinatesWithViewport x y vi none).y ≤ vi.safeZone.maxY := by
  unfold validateCoordinatesWithViewport
  exact preBoxResolve_mem x y vi hx hy

/-- Witness for the amended C1 at the concrete point (100, 100) on the
standard 1280×720 viewport. -/
theorem validate_no_bbox_within_safeZone_witness :
    (15 : ℚ) ≤ (validateCoordinatesWithViewport 100 100 stdViewportInfo none).x ∧
    (validateCoordinatesWithViewport 100 100 stdViewportInfo none).x ≤ 1265 ∧
    (60 : ℚ) ≤ (validateCoordinatesWithViewport 100 100 stdViewportInfo none).y ∧
    (validateCoordinatesWithViewport 100 100 stdViewportInfo none).y ≤ 705 :=
  validate_no_bbox_within_safeZone 100 100 stdViewportInfo (by norm_num [stdViewportInfo])
    (by norm_num [stdViewportInfo])

/-- Claim C6: a bounding box that fails the sanity checks never influences
the validated output — the resolution equals the one computed with no
bounding box at all. -/
theorem validate_invalid_bbox_ignored (x y : ℚ) (vi : ViewportInfo) (b : BoundingBox)
    (hinvalid : ¬ isBboxValid (processBBox b) vi.viewport) :
    validateCoordinatesWithViewport x y vi (some b) =
      validateCoordinatesWithViewport x y vi none := by
  unfold validateCoordinatesWithViewport applyBoundingBox
  simp [hinvalid]

/-- Witness for C6: a box with a negative left edge is ignored. -/
theorem validate_invalid_bbox_ignored_witness :
    validateCoordinatesWithViewport 300 300 stdViewportInfo
        (some { left := -5, top := 10, right := 200, bottom := 100 }) =
      validateCoordinatesWithViewport 300 300 stdViewportInfo none :=
  validate_invalid_bbox_ignored 300 300 stdViewportInfo _
    (by norm_num [isBboxValid, processBBox, snapHalf, jsFloor, truthyOr, stdViewportInfo])

/-- Claim C7: on a viewport large enough for the box (100, 100)–(420, 140)
to pass validation, whenever the current point (after the snap,
screen-correction and safe-zone clamp) lies outside the box's 2px-inset
inner rectangle, the 320×40 box is classified as an input field
(width > 200, height < 60) and the returned point is exactly (180, 120) —
25% across and vertically centered. -/
theorem validate_input_field_retarget (x y : ℚ) (vi : ViewportInfo)
    (hw : 420 ≤ vi.viewport.width) (hh : 140 ≤ vi.viewport.height)
    (hout : (preBoxResolve x y vi).1 < 102 ∨ (preBoxResolve x y vi).1 > 418 ∨
            (preBoxResolve x y vi).2.1 < 102 ∨ (preBoxResolve x y vi).2.1 > 138) :
    (validateCoordinatesWithViewport x y vi
        (some { left := 100, top := 100, right := 420, bottom := 140 })).x = 180 ∧
    (validateCoordinatesWithViewport x y vi
        (some { left := 100, top := 100, right := 420, bottom := 140 })).y = 120 := by
  have hpb : processBBox { left := 100, top := 100, right := 420, bottom := 140 } =
      { left := 100, top := 100, right := 420, bottom := 140, width := 320, height := 40 } := by
    simp only [processBBox, snapHalf, jsFloor, truthyOr]
    norm_num
  have hvalid : isBboxValid
      ({ left := 100, top := 100, right := 420, bottom := 140, width := 320, height := 40 } :
        ProcessedBBox) vi.viewport := by
    refine ⟨by norm_num, by norm_num, by push_cast; linarith, by push_cast; linarith,
      by norm_num, by norm_num, by norm_num, by norm_num⟩
  unfold validateCoordinatesWithViewport applyBoundingBox
  simp only [hpb]
  rw [if_pos hvalid]
  norm_num
  rw [if_pos (by convert hout using 2)]
  constructor <;> norm_num [jsFloor, clampTo]

set_option maxHeartbeats 1000000 in
/-- Witness for C7 at the concrete point (500, 500): outside the inner
rectangle, so the result is retargeted to (180, 120). -/
theorem validate_input_field_retarget_witness :
    (validateCoordinatesWithViewport 500 500 stdViewportInfo
        (some { left := 100, top := 100, right := 420, bottom := 140 })).x = 180 ∧
    (validateCoordinatesWithViewport 500 500 stdViewportInfo
        (some { left := 100, top := 100, right := 420, bottom := 140 })).y = 120 := by
  apply validate_input_field_retarget
  · norm_num [stdViewportInfo]
  · norm_num [stdViewportInfo]
  · right; left
    norm_num [preBoxResolve, snapHalf, jsFloor, clampTo, stdViewportInfo]

/-- Claim C8: on the successful query path, the safe zone is
minX = 15, minY = max(60, chromeHeight + 15), maxX = viewport.width − 15,
maxY = viewport.height − 15, with chrome = window − viewport. -/
theorem getViewportInfo_success_safeZone (d : ViewportDriver) (ws : WindowSize)
    (vq : ViewportQuery)
    (hws : d.getWindowSize = .ok ws) (hvq : d.execute = .ok vq) :
    getViewportInfo d =
      .ok { window := ws
            viewport := .full vq
            browserChrome := { width := ws.width - vq.width, height := ws.height - vq.height }
            safeZone :=
              { minX := 15
                minY := max 60 ((ws.height - vq.height) + 15)
                maxX := vq.width - 15
                maxY := vq.height - 15 } } := by
  rw [getViewportInfo, hws, hvq]

/-- Witness for C8: a 1280×720 viewport with zero chrome height yields the
safe zone (15, 60, 1265, 705). -/
theorem getViewportInfo_success_safeZone_witness :
    getViewportInfo
      { getWindowSize := .ok { width := 1280, height := 720 }
        execute := .ok { width := 1280, height := 720, scrollX := 0, scrollY := 0,
                         scrollWidth := 1280, scrollHeight := 2000,
                         clientWidth := 1280, clientHeight := 720 } } =
      .ok { window := { width := 1280, height := 720 }
            viewport := .full { width := 1280, height := 720, scrollX := 0, scrollY := 0,
                                scrollWidth := 1280, scrollHeight := 2000,
                                clientWidth := 1280, clientHeight := 720 }
            browserChrome := { width := 0, height := 0 }
            safeZone := { minX := 15, minY := 60, maxX := 1265, maxY := 705 } } := by
  rw [getViewportInfo_success_safeZone _ { width := 1280, height := 720 } _ rfl rfl]
  norm_num

/-- Claim C4, counterexample: with an initialized driver whose window-size
query fails, `getViewportInfo` does throw — the catch-block fallback calls
`getScreenSize`, which rethrows the window-size failure — so the claim
that it never throws once a driver is initialized is false. -/
theorem getViewportInfo_throws_when_window_size_fails :
    getViewportInfo { getWindowSize := .error "session disconnected",
                      execute := .error "page not available" } =
      .error "session disconnected" := rfl

/-- Claim C4, amended: when the window-size query succeeds and the in-page
viewport query fails, `getViewportInfo` does not throw and returns the
degraded fallback whose viewport equals the bare window size, whose
browserChrome is (0, 50) and whose safe zone is (10, 50, width − 10,
height − 10); if the window-size query itself fails, the failure
propagates instead. -/
theorem getViewportInfo_fallback_on_execute_failure (d : ViewportDriver)
    (ws : WindowSize) (e : String)
    (hws : d.getWindowSize = .ok ws) (hvq : d.execute = .error e) :
    getViewportInfo d =
      .ok { window := ws
            viewport := .bare ws
            browserChrome := { width := 0, height := 50 }
            safeZone := { minX := 10, minY := 50, maxX := ws.width - 10,
                          maxY := ws.height - 10 } } := by
  rw [getViewportInfo, hws, hvq, viewportFallback, getScreenSize, hws]

/-- Witness for the amended C4 on a concrete 1280×770 window. -/
theorem getViewportInfo_fallback_on_execute_failure_witness :
    getViewportInfo { getWindowSize := .ok { width := 1280, height := 770 },
                      execute := .error "script timeout" } =
      .ok { window := { width := 1280, height := 770 }
            viewport := .bare { width := 1280, height := 770 }
            browserChrome := { width := 0, height := 50 }
            safeZone := { minX := 10, minY := 50, maxX := 1270, maxY := 760 } } := by
  rw [getViewportInfo_fallback_on_execute_failure _ { width := 1280, height := 770 }
    "script timeout" rfl rfl]
  norm_num

/-- Claim C9: the clearing cascade tries its four methods strictly in
order and returns immediately after the first method following which the
focused field's value reads empty (methods after it are never attempted);
all four are attempted exactly when no method leaves the field reading
empty. -/
theorem clearEmailField_stops_at_first_success :
    (∀ env i, i < 4 → (∀ j, j < i → methodClears env j = false) →
      methodClears env i = true →
      clearEmailField env = (List.range (i + 1), true)) ∧
    (∀ env, (∀ i, i < 4 → methodClears env i = false) →
      clearEmailField env = ([0, 1, 2, 3], false)) := by
  constructor
  · intro env i hi hprev hcur
    interval_cases i
    · simp [clearEmailField, clearLoop, hcur, List.range_succ]
    · have h0 := hprev 0 (by omega)
      simp [clearEmailField, clearLoop, h0, hcur, List.range_succ]
    · have h0 := hprev 0 (by omega)
      have h1 := hprev 1 (by omega)
      simp [clearEmailField, clearLoop, h0, h1, hcur, List.range_succ]
    · have h0 := hprev 0 (by omega)
      have h1 := hprev 1 (by omega)
      have h2 := hprev 2 (by omega)
      simp [clearEmailField, clearLoop, h0, h1, h2, hcur, List.range_succ]
  · intro env hall
    have h0 := hall 0 (by omega)
    have h1 := hall 1 (by omega)
    have h2 := hall 2 (by omega)
    have h3 := hall 3 (by omega)
    simp [clearEmailField, clearLoop, h0, h1, h2, h3]

/-- Witness for C9: when the second method is the first to clear the
field, exactly methods 0 and 1 are attempted. -/
theorem clearEmailField_stops_at_first_success_witness :
    clearEmailField clearEnvSecond = ([0, 1], true) := by
  have h := clearEmailField_stops_at_first_success.1 clearEnvSecond 1 (by omega)
    (fun j hj => by interval_cases j; decide) (by decide)
  rw [h]
  rfl

/-- Claim C10: `executeActionWithLogging` is total — it returns a result
for every action object and driver outcome — its `actionResult.success` is
true exactly when no driver call raised an error (including the
post-action screenshot), `error_message` is populated exactly on failure,
and exactly one entry is appended to `actionLogs`. -/
theorem executeActionWithLogging_total (d : ActionDriver) (action : IterAction)
    (actionLogs : List AppiumLog) :
    ((executeActionWithLogging d action actionLogs).2.length = actionLogs.length + 1) ∧
    ((executeActionWithLogging d action actionLogs).1.actionResult.success =
      (exceptOk (dispatchAction d action) && exceptOk d.takeScreenshot)) ∧
    ((executeActionWithLogging d action actionLogs).1.actionResult.success = false →
      (executeActionWithLogging d action actionLogs).1.actionResult.error_message ≠ none) ∧
    ((executeActionWithLogging d action actionLogs).1.actionResult.success = true →
      (executeActionWithLogging d action actionLogs).1.actionResult.error_message = none) := by
  cases hd : dispatchAction d action <;> cases hs : d.takeScreenshot <;>
    simp [executeActionWithLogging, exceptOk, hd, hs]

/-- Witness for C10: a rejected click yields a failed result with an error
message and appends one log entry. -/
theorem executeActionWithLogging_total_witness :
    ((executeActionWithLogging failingClickDriver clickAction []).2.length = 0 + 1) ∧
    (executeActionWithLogging failingClickDriver clickAction []).1.actionResult.success
      = false ∧
    (executeActionWithLogging failingClickDriver clickAction []).1.actionResult.error_message
      ≠ none := by
  have h := executeActionWithLogging_total failingClickDriver clickAction []
  refine ⟨h.1, ?_, ?_⟩
  · rw [h.2.1]; rfl
  · apply h.2.2.1; rw [h.2.1]; rfl

/-- Claim C3: on a non-final attempt whose guidance succeeded with a click
action and whose execution raised no error, if the fresh post-action
screenshot's length differs from the pre-action screenshot's length by at
most 1% of the latter (both non-empty), the attempt loop continues with
the fresh screenshot — the click is a soft failure and the step is not
recorded as successful at this attempt. -/
theorem stepLoop_click_no_ui_change_retries (env : StepEnv) (fuel attempt : ℕ)
    (cur newShot : Screenshot) (lastError : Option String)
    (hattempt : attempt < maxRetries)
    (hg : (env.guidance attempt cur).success = true)
    (hclick : (env.guidance attempt cur).actionType = some "click")
    (hperf : env.performMain attempt = .ok ())
    (hshot : env.afterShot attempt = .ok newShot)
    (hne1 : cur ≠ "") (hne2 : newShot ≠ "")
    (hdelta : (|(cur.length : ℤ) - (newShot.length : ℤ)| : ℚ) ≤
      (cur.length : ℚ) * (1/100)) :
    stepLoop env (fuel + 1) attempt cur lastError =
      stepLoop env fuel (attempt + 1) newShot lastError := by
  have hui : hasUIChanged cur newShot = false := by
    rw [hasUIChanged, if_neg (by simp [hne1, hne2])]
    simp only [decide_eq_false_iff_not, not_lt]
    push_cast
    exact hdelta
  rw [stepLoop]
  simp [hg, hperf, hshot, hattempt, hui, hclick]

/-- Witness for C3: identical pre/post screenshots on attempt 1 push the
loop to attempt 2 with the fresh screenshot. -/
theorem stepLoop_click_no_ui_change_retries_witness :
    1 < maxRetries ∧
    stepLoop stepEnvRetry 3 1 "ab" none = stepLoop stepEnvRetry 2 2 "ab" none := by
  refine ⟨by norm_num [maxRetries], ?_⟩
  exact stepLoop_click_no_ui_change_retries stepEnvRetry 2 1 "ab" "ab" none
    (by norm_num [maxRetries]) rfl rfl rfl rfl (by decide) (by decide) (by norm_num)

lemma iterLoop_bound (env : IterEnv) (maxSteps : ℕ) :
    ∀ n ca stepNumber steps shots,
      maxSteps + 1 - stepNumber ≤ n →
      steps.length + 1 = stepNumber →
      stepNumber ≤ maxSteps + 1 →
      (iterLoop env maxSteps ca stepNumber steps shots).steps.length ≤ maxSteps := by
  intro n
  induction n with
  | zero =>
      intro ca stepNumber steps shots hn h1 h2
      rw [iterLoop.eq_def]
      match ca with
      | none => simpa using by omega
      | some a =>
          dsimp only
          rw [dif_neg (by omega)]
          simpa using by omega
  | succ n ih =>
      intro ca stepNumber steps shots hn h1 h2
      rw [iterLoop.eq_def]
      match ca with
      | none => simpa using by omega
      | some a =>
          dsimp only
          by_cases hs : stepNumber ≤ maxSteps
          · rw [dif_pos hs]
            by_cases ht : env.timedOut stepNumber
            · simp [ht, iterErrorResult]; omega
            · simp only [ht, if_false]
              cases hfb : env.feedback stepNumber with
              | error e => simp [iterErrorResult]; omega
              | ok fb =>
                  by_cases htc : fb.task_completed
                  · simp [htc]; omega
                  · by_cases hsc : fb.should_continue
                    · simp only [htc, hsc, Bool.not_true, if_false, Bool.false_eq_true]
                      cases hna : fb.next_action with
                      | none => simp; omega
                      | some na =>
                          simp only []
                          apply ih
                          · omega
                          · simp; omega
                          · omega
                    · simp [htc, hsc]; omega
          · rw [dif_neg hs]
            simpa using by omega

/-- Claim C5: for every environment (any sequence of AI feedback
responses, driver outcomes and timeout behaviour) and every positive
configured `maxSteps`, the number of steps recorded in the session's steps
list never exceeds `maxSteps`. -/
theorem executeIterativeTest_steps_le_maxSteps (env : IterEnv) (m : ℕ) (hm : 0 < m) :
    (executeIterativeTest env (some m)).steps.length ≤ m := by
  unfold executeIterativeTest
  dsimp only
  rw [if_neg (Nat.pos_iff_ne_zero.mp hm)]
  cases env.initialScreenshot with
  | error e => simp [iterErrorResult]
  | ok s0 =>
      cases env.getScreenSize with
      | error e => simp [iterErrorResult]
      | ok ws =>
          cases env.startSession with
          | error e => simp [iterErrorResult]
          | ok fa =>
              exact iterLoop_bound env m m fa 1 [] [s0] (by omega) (by simp) (by omega)

/-- Witness for C5 with a step budget of 2 and an environment that always
continues: at most 2 steps are recorded. -/
theorem executeIterativeTest_steps_le_maxSteps_witness :
    0 < 2 ∧ (executeIterativeTest noNextActionEnv (some 2)).steps.length ≤ 2 :=
  ⟨by omega, executeIterativeTest_steps_le_maxSteps noNextActionEnv 2 (by omega)⟩

/-- Claim C2, counterexample: when the first feedback carries
`task_completed = false`, `should_continue = true` and no `next_action`,
the session resolves with terminal status `max_steps_reached` — the break
falls through to the step-budget epilogue, contradicting the claim that
the session is not reported as having exhausted its step budget. -/
theorem iterative_no_next_action_reports_max_steps :
    (executeIterativeTest noNextActionEnv (some 10)).status = .max_steps_reached := by
  rw [executeIterativeTest]
  dsimp only [noNextActionEnv]
  rw [iterLoop.eq_def]
  simp [executeActionWithLogging, dispatchAction, okActionDriver, clickAction]

/-- Claim C2, amended: when a step's feedback has `task_completed = false`
and `should_continue = true` but supplies no `next_action`, the loop does
break immediately — exactly one further step record (the step just
executed) is appended — but the session resolves with terminal status
`max_steps_reached` and `totalSteps = stepNumber − 1`, i.e. it is reported
through the step-budget status even though the budget was not exhausted. -/
theorem iterLoop_no_next_action_breaks_as_max_steps (env : IterEnv) (maxSteps : ℕ)
    (a : IterAction) (stepNumber : ℕ) (steps : List IterStepRec)
    (shots : List Screenshot)
    (hs : stepNumber ≤ maxSteps)
    (ht : env.timedOut stepNumber = false)
    (hfb : env.feedback stepNumber =
      .ok { should_continue := true, task_completed := false, next_action := none }) :
    (iterLoop env maxSteps (some a) stepNumber steps shots).status = .max_steps_reached ∧
    (iterLoop env maxSteps (some a) stepNumber steps shots).steps =
      steps ++ [{ stepNumber := stepNumber
                  success := (executeActionWithLogging (env.driverAt stepNumber) a
                    []).1.actionResult.success }] ∧
    (iterLoop env maxSteps (some a) stepNumber steps shots).totalSteps = stepNumber - 1 := by
  rw [iterLoop.eq_def]
  dsimp only
  rw [dif_pos hs]
  rw [ht]
  rw [hfb]
  simp

/-- Witness for the amended C2 at step 1 of a 10-step budget. -/
theorem iterLoop_no_next_action_breaks_as_max_steps_witness :
    (iterLoop noNextActionEnv 10 (some clickAction) 1 [] ["s0"]).status =
      .max_steps_reached ∧
    (iterLoop noNextActionEnv 10 (some clickAction) 1 [] ["s0"]).totalSteps = 0 := by
  have h := iterLoop_no_next_action_breaks_as_max_steps noNextActionEnv 10 clickAction 1
    [] ["s0"] (by omega) rfl rfl
  exact ⟨h.1, h.2.2⟩

end Budsy
